import Mathlib

/-!
# Verification of the ts_dream device-link subsystem

A shallow embedding, in Lean 4, of the DREAM CSC code in
`python/lsst/ts/dream/csc/` (the protocol client `DreamModel.write`, the
`DreamCsc` health monitor / reconnect backoff, the data-product retrieval
pipeline, and the `StatusTopicsBuilder` status translator), together with
theorems settling the specification's testable properties against the code.

Python's dynamically typed values are modelled by the `Json` inductive type,
and Python exceptions by `PyExc`; fallible Python code is embedded in the
`Except PyExc` monad.  External libraries (astropy, ts-xml enumerations,
salobj's `make_key`) are modelled by explicitly named parameters or by small
faithful models documented at their definitions; no theorem below depends on
the numeric values of the external ts-xml enumeration members.
-/

namespace Dream

/-- Python exceptions that the embedded code can raise. -/
inductive PyExc where
  | keyError
  | typeError
  | attributeError
  | valueError
  | indexError
  | runtimeError (msg : String)
deriving DecidableEq, Repr

/-- A Python float: either NaN or an exact value (modelled as a rational;
the floats occurring in the embedded code are exact in double precision). -/
inductive PyFloat where
  | nan
  | val (q : ℚ)
deriving DecidableEq, Repr

/-- Python/JSON values as they occur in DREAM status documents and protocol
responses.  `bool`, `int`, `float` and `str` are the scalar types; `list`
and `dict` are containers (a `dict` is an insertion-ordered association
list with unique keys, as in CPython). -/
inductive Json where
  | null
  | bool (b : Bool)
  | int (n : ℤ)
  | float (x : PyFloat)
  | str (s : String)
  | list (xs : List Json)
  | dict (xs : List (String × Json))

mutual

/-- Structural equality of embedded Python values.  This models the `==`
comparisons the source performs on status values: the values compared in the
code (topic dictionaries built by one and the same builder function) agree in
key order and in the runtime type held at each key, so structural equality
coincides with Python's `==` there. -/
def Json.beq : Json → Json → Bool
  | .null, .null => true
  | .bool a, .bool b => a == b
  | .int a, .int b => a == b
  | .float a, .float b => a == b
  | .str a, .str b => a == b
  | .list xs, .list ys => Json.beqList xs ys
  | .dict xs, .dict ys => Json.beqDict xs ys
  | _, _ => false

/-- Element-wise equality of embedded Python lists. -/
def Json.beqList : List Json → List Json → Bool
  | [], [] => true
  | x :: xs, y :: ys => Json.beq x y && Json.beqList xs ys
  | _, _ => false

/-- Pair-wise equality of embedded Python dicts (same key order). -/
def Json.beqDict : List (String × Json) → List (String × Json) → Bool
  | [], [] => true
  | (k, v) :: xs, (l, w) :: ys => k == l && (Json.beq v w && Json.beqDict xs ys)
  | _, _ => false

end

/-- `d[k]` for a string key: raises `KeyError` when the key is absent and
`TypeError` when `d` is not a dict (not subscriptable by a string). -/
def Json.getItem : Json → String → Except PyExc Json
  | .dict xs, k =>
    match xs.lookup k with
    | some v => .ok v
    | none => .error .keyError
  | _, _ => .error .typeError

/-- Python `v == s` for a string literal `s`: true exactly when `v` is an
equal string (`==` between a string and any other type is `False` and never
raises). -/
def pyEqStr (v : Json) (s : String) : Bool :=
  match v with
  | .str t => t = s
  | _ => false

/-- Python `x in coll` for a string `x`.  Lists compare `x` to every element
with `==` (a string equals only an equal string); dict membership tests the
keys; `x in s` for strings is substring containment; other values are not
containers and raise `TypeError`. -/
def pyContains (coll : Json) (x : String) : Except PyExc Bool :=
  match coll with
  | .list xs => .ok (xs.any (fun v => pyEqStr v x))
  | .dict xs => .ok (xs.any (fun kv => kv.1 = x))
  | .str s => .ok (decide (x = "") || decide ((s.splitOn x).length > 1))
  | _ => .error .typeError

/-- Python `v == n` for an integer `n`: numeric values compare by value
(`True == 1`, `1.0 == 1`), anything else is unequal; never raises. -/
def pyEqInt (v : Json) (n : ℤ) : Bool :=
  match v with
  | .int m => m = n
  | .float (.val q) => q = (n : ℚ)
  | .bool b => (if b then (1 : ℤ) else 0) = n
  | _ => false

/-- Python `v < q` against a float `q` (the configured threshold): numeric
values compare by value, comparisons involving NaN are `False`, and a
non-numeric left operand raises `TypeError`. -/
def pyLtFloat (v : Json) (q : PyFloat) : Except PyExc Bool :=
  match v, q with
  | .int n, .val t => .ok ((n : ℚ) < t)
  | .float (.val p), .val t => .ok (p < t)
  | .bool b, .val t => .ok (((if b then (1 : ℚ) else 0)) < t)
  | .int _, .nan => .ok false
  | .float _, .nan => .ok false
  | .float .nan, .val _ => .ok false
  | .bool _, .nan => .ok false
  | _, _ => .error .typeError

/-- Python `str.capitalize()`: first character upper-cased, the rest
lower-cased (the strings involved are ASCII). -/
def pyCapitalize (s : String) : String :=
  match s.data with
  | [] => ""
  | c :: cs => String.mk (c.toUpper :: cs.map Char.toLower)

/-!
## The status translator: `status_topics_builder.py`

The ts-xml `DREAM` enumerations (`Camera`, `CameraServerMode`, `DomeState`,
`DomeTargetState`, `HeaterState`, `PeltierState`, `Error`, `Warning`) and the
astropy/datetime timestamp conversions live outside this repository.  They
enter the embedding through an `Env` record of member tables and conversion
functions; the member tables map a capitalized member name to the member's
`.value`.  No theorem below depends on the entries of an `Env`.
-/

/-- External environment: the ts-xml DREAM enumeration member tables and the
timestamp conversions (`datetime.fromisoformat` composed with astropy
`Time(...).unix_tai`) used by `status_topics_builder.py`. -/
structure Env where
  cameraServerMode : List (String × ℤ)
  domeState : List (String × ℤ)
  domeTargetState : List (String × ℤ)
  heaterState : List (String × ℤ)
  peltierState : List (String × ℤ)
  /-- `DREAM.Camera.<member>.value` by member name. -/
  cameraVal : String → ℤ
  /-- `DREAM.Error.<member>.value` by member name. -/
  errorVal : String → ℤ
  /-- `DREAM.Warning.<member>.value` by member name. -/
  warningVal : String → ℤ
  /-- `isot_to_tai_unix` on a string argument: `datetime.fromisoformat`
  (which raises `ValueError` on a malformed string) followed by
  `float(Time(dt).unix_tai)`. -/
  isotParse : String → Except PyExc PyFloat
  /-- `float(Time(v, scale="utc", format="unix").unix_tai)` on the raw
  `last_online` value (raises on a non-numeric input). -/
  unixToTai : Json → Except PyExc PyFloat

/-- A concrete environment used only to evaluate closed statements whose
execution never consults the enumeration tables or timestamp conversions. -/
def defaultEnv : Env where
  cameraServerMode := []
  domeState := []
  domeTargetState := []
  heaterState := []
  peltierState := []
  cameraVal := fun _ => 0
  errorVal := fun _ => 0
  warningVal := fun _ => 0
  isotParse := fun _ => .error .valueError
  unixToTai := fun _ => .error .valueError

/-- The module-level `cameras` dict: each camera's name in the DREAM status
message mapped to that camera's identity in the ts-xml `DREAM.Camera` enum
(the member's `.value`, via the environment). -/
def camerasMap (env : Env) : List (String × ℤ) :=
  [("E", env.cameraVal "East"),
   ("W", env.cameraVal "West"),
   ("N", env.cameraVal "North"),
   ("C", env.cameraVal "Central"),
   ("S", env.cameraVal "South")]

/-- The module-level `errors` dict: the error string for each error
represented in the `DREAM.Error` enum, in source order. -/
def errorsMap (env : Env) : List (String × ℤ) :=
  [("Both open and closed are pushed", env.errorVal "LimitSwitchError"),
   ("Dome should be closed but it is not", env.errorVal "DomeError"),
   ("Backdoor is open", env.errorVal "BackdoorOpen"),
   ("Door is open", env.errorVal "DoorOpen"),
   ("UPS not reachable or not responding", env.errorVal "UpsError"),
   ("PDU 1 not reachable", env.errorVal "Pdu1Error"),
   ("PDU 2 not reachable", env.errorVal "Pdu2Error"),
   ("Temp hum sensor not reachable", env.errorVal "TemphumError"),
   ("PSU reports a problem", env.errorVal "PsuError"),
   ("UPS battery needs replacing", env.errorVal "UpsBatteryNeedsReplace"),
   ("Camera bay temperature too high", env.errorVal "CameraBayTempError"),
   ("Humidity in camera bay too high", env.errorVal "CameraBayHumError"),
   ("Humidity in electronics box > limit", env.errorVal "ElectronicsHumidityError"),
   ("Humidty under dome > limit", env.errorVal "DomeHumidityError")]

/-- The module-level `warnings` dict: the warning string for each warning
represented in the `DREAM.Warning` enum, in source order. -/
def warningsMap (env : Env) : List (String × ℤ) :=
  [("Power saving mode activated", env.warningVal "PowersavingActivated"),
   ("UPS is on battery", env.warningVal "UpsOnBattery"),
   ("Dome opening blocked by NO-GO", env.warningVal "DomeClosedByNogo"),
   ("Dome opening blocked by sun alt", env.warningVal "DomeClosedBySun"),
   ("Dome opening blocked by temp/hum", env.warningVal "DomeClosedByEnv"),
   ("Dome opening blocked by UPS error", env.warningVal "DomeClosedByUps"),
   ("Dome opening blocked by timer", env.warningVal "DomeClosedByTimer"),
   ("User stopped dome movement", env.warningVal "DomeStopped"),
   ("User forced dome open", env.warningVal "DomeForcedOped"),
   ("Dome opening blocked by backdoor", env.warningVal "DomeClosedByDoor"),
   ("Rubin client not connected", env.warningVal "RubinNoClient"),
   ("More than 1 client on rubin socket", env.warningVal "RubinMultipleClients"),
   ("Rubin client update too old", env.warningVal "RubinClientStale"),
   ("Rubin-provided weather flag too old", env.warningVal "RubinWeatherTooOld"),
   ("Bad weather flag set by Rubin", env.warningVal "RubinBadWeather"),
   ("NO-GO for dome open set by Rubin", env.warningVal "RubinNogo"),
   ("There is an active script client", env.warningVal "ScriptClientActive"),
   ("Dream inlet humidity high", env.warningVal "InletHumWarning"),
   ("Dream inlet temperature low", env.warningVal "InletTempWarning"),
   ("North camera not connected", env.warningVal "CameraNNotConnected"),
   ("South camera not connected", env.warningVal "CameraSNotConnected"),
   ("East camera not connected", env.warningVal "CameraENotConnected"),
   ("West camera not connected", env.warningVal "CameraWNotConnected"),
   ("Center camera not connected", env.warningVal "CameraCNotConnected"),
   ("Dome movements are simulated", env.warningVal "SimulatedDome"),
   ("LEDs are simulated", env.warningVal "SimulatedLeds"),
   ("UPS is simulated", env.warningVal "SimulatedUps"),
   ("PDU is simulated", env.warningVal "SimulatedPdu"),
   ("Temp/humidity sensors are simulated", env.warningVal "SimulatedEnv"),
   ("Sun angle is simulated", env.warningVal "SimulatedSun")]

/-- The module-level `pdu_status` tuple: the keys of the PDU status
dictionary in the order prescribed by the DREAM ts-xml interface. -/
def pdu_status : List String :=
  ["Switch", "USB hub", "PSU 1", "PSU 2", "Central Camera", "North Camera",
   "East Camera", "South Camera", "West Camera", "Command Server",
   "Central Server", "North Server", "East Server", "South Server",
   "West Server"]

/-- The module-level `relays` dict: key name of each relay in the DREAM
status message, and the value used when that relay is switched. -/
def relays : List (String × String) :=
  [("motor_relay", "on"), ("motor_dir", "closing"), ("peltier_relay", "on"),
   ("peltier_dir", "cooling"), ("window_heaters", "on")]

/-- The module-level `environment` tuple: keys of the `temp_hum` status
structure, in the order expected by the DREAM XML interface. -/
def environment : List String :=
  ["electronics_top", "camera_bay", "electronics_box", "rack_top",
   "rack_bottom", "dream_inlet"]

/-- `enum_value_from_str(enum_cls, s)`: `None` maps to `-1`; a string is
capitalized and looked up in the member table, a failed lookup yielding `-1`;
a non-string non-`None` argument has no `capitalize` attribute and raises
`AttributeError`. -/
def enum_value_from_str (enum : List (String × ℤ)) (v : Json) : Except PyExc Json :=
  match v with
  | .null => .ok (.int (-1))
  | .str s =>
    match enum.lookup (pyCapitalize s) with
    | some n => .ok (.int n)
    | none => .ok (.int (-1))
  | _ => .error .attributeError

/-- `isot_to_tai_unix(isot_str)`: `None` maps to NaN, a string goes through
`datetime.fromisoformat` and astropy (the environment), and any other value
raises `TypeError` inside `datetime.fromisoformat`. -/
def isot_to_tai_unix (env : Env) (v : Json) : Except PyExc Json :=
  match v with
  | .null => .ok (.float .nan)
  | .str s => (env.isotParse s).map .float
  | _ => .error .typeError

/-- `to_value(value, default)` specialised as `to_int`: `None` maps to `-1`;
any other value is returned unchanged (the source performs no type check). -/
def to_int (v : Json) : Json :=
  match v with
  | .null => .int (-1)
  | v => v

/-- `to_value(value, default)` specialised as `to_float`: `None` maps to NaN;
any other value is returned unchanged (the source performs no type check). -/
def to_float (v : Json) : Json :=
  match v with
  | .null => .float .nan
  | v => v

/-- One step of `map_to_bitfield`'s loop: a message found in the map ors its
bit value into the bitmask, any other message is appended to the unknowns. -/
def map_to_bitfield_step (message_map : List (String × ℤ))
    (acc : ℤ × List String) (msg : Json) : Except PyExc (ℤ × List String) :=
  match msg with
  | .str s =>
    match message_map.lookup s with
    | some v => .ok (Int.lor acc.1 v, acc.2)
    | none => .ok (acc.1, acc.2 ++ [s])
  | _ =>
    -- A non-string message is not a key of the map (`msg in message_map` is
    -- `False`), is appended to the unknowns, and later makes
    -- `";".join(unknowns)` raise `TypeError`; we raise at the append.
    .error .typeError

/-- `map_to_bitfield(messages, message_map)`: aggregate a list of message
strings into `(bitmask, semicolon-joined unrecognized strings)`.  Iterating
a non-list raises `TypeError` (a string argument would iterate characters,
which the step above likewise rejects as it tries to join non-mapped
1-character strings — those are strings, so we expand them faithfully). -/
def map_to_bitfield (messages : Json) (message_map : List (String × ℤ)) :
    Except PyExc (ℤ × String) := do
  let msgs : List Json ←
    match messages with
    | .list xs => pure xs
    | .str s => pure (s.data.map (fun c => .str (String.mk [c])))
    | .dict xs => pure (xs.map (fun kv => .str kv.1))
    | _ => .error .typeError
  let r ← msgs.foldlM (map_to_bitfield_step message_map) ((0 : ℤ), [])
  return (r.1, String.intercalate ";" r.2)

/-- The field dictionary of one SAL topic sample (`TopicData` in the
source). -/
abbrev TopicData := List (String × Json)

/-- A list of `(topic name, topic fields)` samples (`SampleList`). -/
abbrev SampleList := List (String × TopicData)

/-- `self.camera_event_cache`: the per-camera cache of the last built
`evt_camera` field dictionary, keyed by the camera's `DREAM.Camera` value. -/
abbrev CameraCache := List (ℤ × TopicData)

/-- Python truthiness, `bool(x)`. -/
def pyBool : Json → Bool
  | .null => false
  | .bool b => b
  | .int n => n ≠ 0
  | .float .nan => true
  | .float (.val q) => q ≠ 0
  | .str s => s ≠ ""
  | .list xs => ¬xs.isEmpty
  | .dict xs => ¬xs.isEmpty

/-- Assignment `d[k] = v` on an insertion-ordered dict: update in place when
the key exists, append otherwise. -/
def assocSet {α β : Type} [DecidableEq α] : List (α × β) → α → β → List (α × β)
  | [], k, v => [(k, v)]
  | (k', v') :: rest, k, v =>
    if k' = k then (k, v) :: rest else (k', v') :: assocSet rest k v

/-- List item assignment `xs[i] = v` with Python index semantics: negative
indices count from the end, out-of-range indices raise `IndexError`. -/
def pySetIdx (xs : List Json) (i : ℤ) (v : Json) : Except PyExc (List Json) :=
  let n : ℤ := xs.length
  let j := if i < 0 then i + n else i
  if 0 ≤ j ∧ j < n then .ok (xs.set j.toNat v) else .error .indexError

/-- The fields of one camera's `new_event` dict after the leading `source`
entry, in source order (each access into the camera's status dict may
raise). -/
def buildCameraEventRest (env : Env) (camera : Json) :
    Except PyExc TopicData := do
  let cameraMode ← camera.getItem "camera_mode" >>=
    enum_value_from_str env.cameraServerMode
  let nBlank := to_int (← camera.getItem "num_blanks")
  let nDark := to_int (← camera.getItem "num_darks")
  let nBias := to_int (← camera.getItem "num_bias")
  let nFlat := to_int (← camera.getItem "num_flats")
  let nScience := to_int (← camera.getItem "num_science")
  let nMissed := to_int (← camera.getItem "num_missed")
  let lastSequenceNumber := to_int (← camera.getItem "last_image_seq")
  let lastTriggerTime ← camera.getItem "last_image_triggertime" >>=
    isot_to_tai_unix env
  let lastImageTimingLatency := to_float (← camera.getItem "last_image_timing_latency")
  let lastImageUSBLatency := to_float (← camera.getItem "last_image_usb_latency")
  let lastImageArtificialLatency :=
    to_float (← camera.getItem "last_image_artificial_latency")
  let lastImageType ← camera.getItem "last_image_type" >>=
    enum_value_from_str env.cameraServerMode
  let lastImagePixelMedian := to_float (← camera.getItem "last_image_pixel_median")
  return [("cameraMode", cameraMode),
          ("nBlank", nBlank),
          ("nDark", nDark),
          ("nBias", nBias),
          ("nFlat", nFlat),
          ("nScience", nScience),
          ("nMissed", nMissed),
          ("lastSequenceNumber", lastSequenceNumber),
          ("lastTriggerTime", lastTriggerTime),
          ("lastImageTimingLatency", lastImageTimingLatency),
          ("lastImageUSBLatency", lastImageUSBLatency),
          ("lastImageArtificialLatency", lastImageArtificialLatency),
          ("lastImageType", lastImageType),
          ("lastImagePixelMedian", lastImagePixelMedian)]

/-- The `new_event` dict built for one camera: the `source` entry (the
camera's `DREAM.Camera` value) followed by the extracted fields. -/
def buildCameraEvent (env : Env) (source : ℤ) (camera : Json) :
    Except PyExc TopicData :=
  (buildCameraEventRest env camera).map (fun rest => ("source", .int source) :: rest)

/-- The emission condition of `get_events_camera`: the unit's source is not
in the cache, or the cached field-set differs from the newly built one. -/
def cameraChanged (cache : CameraCache) (source : ℤ) (new_event : TopicData) :
    Bool :=
  match cache.lookup source with
  | none => true
  | some old => !Json.beqDict old new_event

/-- The `for camera_id, camera in cameras_dict.items()` loop of
`get_events_camera`: build each camera's event, append it to the output only
when it is absent from or different to the cached one, and cache it
unconditionally.  An exception leaves the appends and cache updates of the
earlier iterations in place. -/
def get_events_camera_loop (env : Env) :
    List (String × Json) → SampleList → CameraCache →
    (Except PyExc SampleList) × CameraCache
  | [], acc, cache => (.ok acc, cache)
  | (camera_id, camera) :: rest, acc, cache =>
    match (camerasMap env).lookup camera_id with
    | none => (.error .keyError, cache)
    | some source =>
      match buildCameraEvent env source camera with
      | .error e => (.error e, cache)
      | .ok new_event =>
        let acc' := if cameraChanged cache source new_event then
          acc ++ [("evt_camera", new_event)] else acc
        get_events_camera_loop env rest acc' (assocSet cache source new_event)

/-- `get_events_camera(dream_status)`: per-camera `evt_camera` events with
change suppression against the per-camera cache (the cache is the builder's
mutable state and is returned alongside the result). -/
def get_events_camera (env : Env) (cache : CameraCache) (doc : Json) :
    (Except PyExc SampleList) × CameraCache :=
  match doc.getItem "cameras" with
  | .error e => (.error e, cache)
  | .ok cams =>
    match cams with
    | .dict xs => get_events_camera_loop env xs [] cache
    | _ => (.error .attributeError, cache)

/-- The `error_flag_map` of `get_event_errors`, in source order. -/
def error_flag_map : List (String × List String) :=
  [("domeHumidity",
    ["Humidity under dome > limit", "Humidty under dome > limit"]),
   ("enclosureTemperature", ["Camera bay temperature too high"]),
   ("enclosureHumidity", ["Humidity in camera bay too high"]),
   ("electronicsBoxCommunication", ["Humidity in electronics box > limit"]),
   ("temperatureSensorCommunication", ["Temp hum sensor not reachable"]),
   ("domePositionUnknown", []),
   ("daqCommunication", []),
   ("pduCommunication", ["PDU 1 not reachable", "PDU 2 not reachable"])]

/-- `any(error_string in dream_status["errors"] for error_string in
error_string_list)`: short-circuiting, and `dream_status["errors"]` is
re-evaluated for each tested string (so an empty string list never touches
it). -/
def anyErrorIn (doc : Json) : List String → Except PyExc Bool
  | [] => .ok false
  | s :: rest => do
    let errs ← doc.getItem "errors"
    let b ← pyContains errs s
    if b then return true else anyErrorIn doc rest

/-- `get_event_errors(dream_status)`: map DREAM error strings into the
high-level error flags, then replace `temperatureSensorCommunication` by the
same flag replicated three times. -/
def get_event_errors (doc : Json) : Except PyExc SampleList := do
  let error_dict : TopicData ← error_flag_map.mapM (fun fl => do
    let b ← anyErrorIn doc fl.2
    return (fl.1, Json.bool b))
  let tsc ← (Json.dict error_dict).getItem "temperatureSensorCommunication"
  let b := Json.bool (pyBool tsc)
  let error_dict := assocSet error_dict "temperatureSensorCommunication"
    (.list [b, b, b])
  return [("evt_errors", error_dict)]

/-- `get_event_power_supply(dream_status)`. -/
def get_event_power_supply (doc : Json) : Except PyExc SampleList := do
  let temperatureError ← (← doc.getItem "psu_status").getItem "temp_error"
  let inputVoltageError ← (← doc.getItem "psu_status").getItem "input_error"
  return [("evt_powerSupply",
           [("temperatureError", temperatureError),
            ("inputVoltageError", inputVoltageError)])]

/-- `get_event_status(dream_status)`: observing/dome/heater/peltier states,
PDU power list, relay states, and the aggregated error/warning bitfields. -/
def get_event_status (env : Env) (doc : Json) : Except PyExc SampleList := do
  let observingMode ← doc.getItem "actual_observing_mode" >>=
    enum_value_from_str env.cameraServerMode
  let targetObservingMode ← doc.getItem "target_observing_mode" >>=
    enum_value_from_str env.cameraServerMode
  let dome ← doc.getItem "actual_dome_state" >>=
    enum_value_from_str env.domeState
  let targetDome ← doc.getItem "target_dome_state" >>=
    enum_value_from_str env.domeTargetState
  let heater ← doc.getItem "actual_heater_state" >>=
    enum_value_from_str env.heaterState
  let targetHeater ← doc.getItem "target_heater_state" >>=
    enum_value_from_str env.heaterState
  let peltier ← doc.getItem "actual_peltier_state" >>=
    enum_value_from_str env.peltierState
  let targetPeltier ← doc.getItem "target_peltier_state" >>=
    enum_value_from_str env.peltierState
  let power ← pdu_status.mapM (fun index => do
    (← doc.getItem "pdu_status").getItem index)
  let relayState ← relays.mapM (fun kv => do
    let v ← (← doc.getItem "electronics").getItem kv.1
    return Json.bool (pyEqStr v kv.2))
  let ef ← map_to_bitfield (← doc.getItem "errors") (errorsMap env)
  let wf ← map_to_bitfield (← doc.getItem "warnings") (warningsMap env)
  return [("evt_status",
           [("observingMode", observingMode),
            ("targetObservingMode", targetObservingMode),
            ("dome", dome),
            ("targetDome", targetDome),
            ("heater", heater),
            ("targetHeater", targetHeater),
            ("peltier", peltier),
            ("targetPeltier", targetPeltier),
            ("power", .list power),
            ("relayState", .list relayState),
            ("errorFlags", .int ef.1),
            ("warningFlags", .int wf.1),
            ("additionalErrors", .str ef.2),
            ("additionalWarnings", .str wf.2)])]

/-- `get_event_temperature_control(dream_status)`. -/
def get_event_temperature_control (doc : Json) : Except PyExc SampleList := do
  let peltier_relay :=
    pyEqStr (← (← doc.getItem "electronics").getItem "peltier_relay") "on"
  let peltier_direction ← (← doc.getItem "electronics").getItem "peltier_dir"
  let heating_on := peltier_relay && pyEqStr peltier_direction "heating"
  let cooling_on := peltier_relay && pyEqStr peltier_direction "cooling"
  return [("evt_temperatureControl",
           [("heatingOn", .bool heating_on), ("coolingOn", .bool cooling_on)])]

/-- `get_event_ups(dream_status)`: UPS health flags; `batteryLow` compares
`battery_charge` against the configured `battery_low_threshold`. -/
def get_event_ups (battery_low_threshold : PyFloat) (doc : Json) :
    Except PyExc SampleList := do
  let ups_online :=
    pyEqStr (← (← doc.getItem "ups_status").getItem "ups_status") "ONLINE"
  let ups_battery_low ←
    pyLtFloat (← (← doc.getItem "ups_status").getItem "battery_charge")
      battery_low_threshold
  let ups_not_on_mains ←
    pyContains (← doc.getItem "warnings") "UPS is on battery"
  let ups_communication_error ←
    pyContains (← doc.getItem "errors") "UPS not reachable or not responding"
  return [("evt_ups",
           [("online", .bool ups_online),
            ("batteryLow", .bool ups_battery_low),
            ("notOnMains", .bool ups_not_on_mains),
            ("communicationError", .bool ups_communication_error)])]

/-- The per-camera loop of `get_telemetry_camera`: writes heartbeat and CCD
temperature into the index given by the camera's `DREAM.Camera` value. -/
def get_telemetry_camera_loop (env : Env) :
    List (String × Json) → List Json → List Json →
    Except PyExc (List Json × List Json)
  | [], hb, temp => .ok (hb, temp)
  | (camera_id, camera) :: rest, hb, temp => do
    let index ←
      match (camerasMap env).lookup camera_id with
      | some i => pure i
      | none => .error .keyError
    let hb ← pySetIdx hb index (← camera.getItem "last_heartbeat" >>=
      isot_to_tai_unix env)
    let temp ← pySetIdx temp index (to_float (← camera.getItem "ccd_temp"))
    get_telemetry_camera_loop env rest hb temp

/-- `get_telemetry_camera(dream_status)`: heartbeat timestamps and CCD
temperatures, initialised to NaN for the `len(cameras) = 5` slots. -/
def get_telemetry_camera (env : Env) (doc : Json) : Except PyExc SampleList := do
  let init : List Json := List.replicate 5 (.float .nan)
  let cams ← doc.getItem "cameras"
  let xs ←
    match cams with
    | .dict xs => pure xs
    | _ => .error .attributeError
  let r ← get_telemetry_camera_loop env xs init init
  return [("tel_camera",
           [("lastCameraHeartbeatTimestamp", .list r.1),
            ("ccdTemperature", .list r.2)])]

/-- `get_telemetry_dome(dream_status)`. -/
def get_telemetry_dome (doc : Json) : Except PyExc SampleList := do
  let encoder ← doc.getItem "dome_position"
  return [("tel_dome", [("encoder", encoder)])]

/-- `get_telemetry_environment(dream_status)`: temperature and humidity for
each monitored location, in `environment` order. -/
def get_telemetry_environment (doc : Json) : Except PyExc SampleList := do
  let temperature ← environment.mapM (fun index => do
    (← (← doc.getItem "temp_hum").getItem index).getItem "temperature")
  let humidity ← environment.mapM (fun index => do
    (← (← doc.getItem "temp_hum").getItem index).getItem "humidity")
  return [("tel_environment",
           [("temperature", .list temperature), ("humidity", .list humidity)])]

/-- `get_telemetry_power_supply(dream_status)`. -/
def get_telemetry_power_supply (doc : Json) : Except PyExc SampleList := do
  let voltage : List Json :=
    [← (← doc.getItem "psu_status").getItem "voltage_feedback",
     ← (← doc.getItem "psu_status").getItem "voltage_setpoint"]
  let current : List Json :=
    [← (← doc.getItem "psu_status").getItem "current_feedback",
     ← (← doc.getItem "psu_status").getItem "current_setpoint"]
  return [("tel_powerSupply",
           [("voltage", .list voltage), ("current", .list current)])]

/-- `get_telemetry_ups(dream_status)`: UPS telemetry; `lastOnline` is added
only when the `last_online` key is present. -/
def get_telemetry_ups (env : Env) (doc : Json) : Except PyExc SampleList := do
  let batteryCharge ← (← doc.getItem "ups_status").getItem "battery_charge"
  let batteryTemperature ←
    (← doc.getItem "ups_status").getItem "battery_temperature"
  let batteryVoltage ← (← doc.getItem "ups_status").getItem "battery_voltage"
  let timeRemaining ← (← doc.getItem "ups_status").getItem "battery_remaining"
  let outputLoad ← (← doc.getItem "ups_status").getItem "output_load"
  let outputCurrent ← (← doc.getItem "ups_status").getItem "output_current"
  let ups_telemetry : TopicData :=
    [("batteryCharge", batteryCharge),
     ("batteryTemperature", batteryTemperature),
     ("batteryVoltage", batteryVoltage),
     ("timeRemaining", timeRemaining),
     ("outputLoad", outputLoad),
     ("outputCurrent", outputCurrent)]
  let hasLastOnline ← pyContains (← doc.getItem "ups_status") "last_online"
  let ups_telemetry ←
    if hasLastOnline then do
      let raw ← (← doc.getItem "ups_status").getItem "last_online"
      let lastOnline ← env.unixToTai raw
      pure (assocSet ups_telemetry "lastOnline" (.float lastOnline))
    else
      pure ups_telemetry
  return [("tel_ups", ups_telemetry)]

/-- A builder method of `StatusTopicsBuilder`: it may read and update the
per-camera cache (only `get_events_camera` does), and an exception preserves
the cache mutations already made. -/
abbrev Builder := CameraCache → Json → (Except PyExc SampleList) × CameraCache

/-- Lift a stateless builder to the uniform builder signature. -/
def liftBuilder (f : Json → Except PyExc SampleList) : Builder :=
  fun cache doc => (f doc, cache)

/-- The `builder_functions` dict of `StatusTopicsBuilder.__call__`, in
source order. -/
def builder_functions (env : Env) (battery_low_threshold : PyFloat) :
    List (String × Builder) :=
  [("evt_camera", get_events_camera env),
   ("evt_errors", liftBuilder get_event_errors),
   ("evt_status", liftBuilder (get_event_status env)),
   ("evt_powerSupply", liftBuilder get_event_power_supply),
   ("evt_temperatureControl", liftBuilder get_event_temperature_control),
   ("evt_ups", liftBuilder (get_event_ups battery_low_threshold)),
   ("tel_camera", liftBuilder (get_telemetry_camera env)),
   ("tel_dome", liftBuilder get_telemetry_dome),
   ("tel_environment", liftBuilder get_telemetry_environment),
   ("tel_powerSupply", liftBuilder (get_telemetry_power_supply)),
   ("tel_ups", liftBuilder (get_telemetry_ups env))]

/-- The `for telemetry_name, builder_function in builder_functions.items()`
loop of `__call__`: `all_topics += builder_function(dream_status)` inside a
`try` that catches `KeyError` only (logging it); any other exception
propagates out of `__call__`. -/
def callLoop : List (String × Builder) → CameraCache → Json → SampleList →
    (Except PyExc SampleList) × CameraCache
  | [], cache, _, acc => (.ok acc, cache)
  | (_, f) :: rest, cache, doc, acc =>
    match f cache doc with
    | (.ok out, cache') => callLoop rest cache' doc (acc ++ out)
    | (.error .keyError, cache') => callLoop rest cache' doc acc
    | (.error e, cache') => (.error e, cache')

/-- `StatusTopicsBuilder.__call__(dream_status)`: run every builder in
order, concatenating their samples; a `KeyError` from a builder is logged
and its output omitted. -/
def statusTopicsBuilder_call (env : Env) (battery_low_threshold : PyFloat)
    (cache : CameraCache) (doc : Json) :
    (Except PyExc SampleList) × CameraCache :=
  callLoop (builder_functions env battery_low_threshold) cache doc []

/-!
## The protocol client: `DreamModel.write` in `model/dream_model.py`

`write` allocates the next request id from `utils.index_generator()` (an
external generator yielding 1, 2, 3, …, modelled by a counter), frames and
sends the request, reads one JSON object back, and validates it.  Every
validation failure raises `RuntimeError`; the distinct raise sites are kept
apart by their messages.
-/

/-- The mutable state of a `DreamModel` that `write` touches: the connection
flag and the position of the request-id generator (the id sent next is
`index + 1`). -/
structure ModelState where
  connected : Bool
  index : ℕ
deriving DecidableEq, Repr

/-- A protocol response as read by `tcpip.Client.read_json`: one JSON
object, i.e. a dict. -/
abbrev Response := List (String × Json)

/-- `DreamModel.write(command, **parameters)`, with the single response that
`self.read()` returns passed in as `response`.  Returns the response and the
advanced state on success; raises `RuntimeError` when not connected, when
the response lacks a `request_id`, carries a mismatched `request_id`, lacks
a `result` field, or carries a non-`"ok"` result. -/
def DreamModel.write (st : ModelState) (response : Response) :
    Except PyExc (Response × ModelState) :=
  if ¬st.connected then
    .error (.runtimeError "Not connected")
  else
    let request_id : ℤ := st.index + 1
    let st' : ModelState := { st with index := st.index + 1 }
    match (Json.dict response).getItem "request_id" with
    | .error _ => .error (.runtimeError "No request_id in response from DREAM")
    | .ok rid =>
      if ¬pyEqInt rid request_id then
        .error (.runtimeError "Received unexpected request_id")
      else
        match (Json.dict response).getItem "result" with
        | .error _ =>
          .error (.runtimeError "Required key 'result' not found in response from DREAM")
        | .ok res =>
          if ¬pyEqStr res "ok" then
            .error (.runtimeError "Error response from DREAM")
          else
            .ok (response, st')

/-- A sequence of `write` calls issued one at a time, fed the given incoming
responses in order; stops at the first raised error (which is then the
caller's). -/
def DreamModel.writeSeq (st : ModelState) :
    List Response → Except PyExc (List Response × ModelState)
  | [] => .ok ([], st)
  | r :: rs => do
    let (resp, st') ← DreamModel.write st r
    let (resps, st'') ← DreamModel.writeSeq st' rs
    return (resp :: resps, st'')

/-!
## The data model: `DataProduct` in `model/dream_model.py`

`DataProduct` is a dataclass with fields `kind`, `type`, `seq`, `start`,
`end`, `server`, `size`, `filename`, `sha256` — and no others.  `start` and
`end` are astropy `Time` values.  The external astropy `Time` is modelled by
its value in seconds (a rational); its `.iso` rendering carries exactly the
value rounded to milliseconds and is injective, so the ISO string is
modelled by the integer millisecond count it displays (`IsoString`), and
`Time(iso_string)` recovers exactly that millisecond value.
-/

/-- The ISO-format rendering `Time.iso` of an astropy `Time`, modelled by
the millisecond value the string displays (the rendering is injective). -/
structure IsoString where
  ms : ℤ
deriving DecidableEq, Repr

/-- A Python value held in a `DataProduct` timestamp field or in the
corresponding dict entry.  The dataclass annotation says astropy `Time`, but
Python enforces nothing, so the embedding keeps the runtime type explicit:
this is what the pipeline's type confusions turn on. -/
inductive TimeVal where
  | time (t : ℚ)
  | iso (s : IsoString)
  | float (q : ℚ)
  | int (n : ℤ)
deriving DecidableEq, Repr

/-- `Time.iso` on an astropy `Time` of value `t` seconds: the ISO string
showing `t` rounded to milliseconds. -/
def timeIso (t : ℚ) : IsoString := ⟨round (1000 * t)⟩

/-- The astropy constructor `Time(v)` as used in `DataProduct.from_dict`:
an ISO string parses to its displayed value, a `Time` passes through, and a
bare number has no format and raises `ValueError`. -/
def timeOf (v : TimeVal) : Except PyExc TimeVal :=
  match v with
  | .iso s => .ok (.time (s.ms / 1000))
  | .time t => .ok (.time t)
  | .float _ => .error .valueError
  | .int _ => .error .valueError

/-- The `DataProduct` dataclass.  Note that there is no `revision` field. -/
structure DataProduct where
  kind : String
  type : Option String
  seq : List ℤ
  start : TimeVal
  end_ : TimeVal
  server : String
  size : ℤ
  filename : String
  sha256 : String
deriving DecidableEq, Repr

/-- The dictionary produced by `DataProduct.to_dict` and consumed by
`DataProduct.from_dict`: the dataclass fields with the timestamps in a
serialisable form. -/
structure DataProductDict where
  kind : String
  type : Option String
  seq : List ℤ
  start : TimeVal
  end_ : TimeVal
  server : String
  size : ℤ
  filename : String
  sha256 : String
deriving DecidableEq, Repr

/-- `.iso` attribute access on a timestamp field: only an astropy `Time`
has it. -/
def TimeVal.isoAttr : TimeVal → Except PyExc TimeVal
  | .time t => .ok (.iso (timeIso t))
  | _ => .error .attributeError

/-- `DataProduct.to_dict`: `asdict(self)` with `start` and `end` replaced by
their ISO renderings. -/
def DataProduct.to_dict (p : DataProduct) : Except PyExc DataProductDict := do
  let startIso ← p.start.isoAttr
  let endIso ← p.end_.isoAttr
  return { kind := p.kind, type := p.type, seq := p.seq, start := startIso,
           end_ := endIso, server := p.server, size := p.size,
           filename := p.filename, sha256 := p.sha256 }

/-- `DataProduct.from_dict`: replace `start` and `end` by `Time(...)` of the
stored value and rebuild the dataclass. -/
def DataProduct.from_dict (d : DataProductDict) : Except PyExc DataProduct := do
  let start ← timeOf d.start
  let end_ ← timeOf d.end_
  return { kind := d.kind, type := d.type, seq := d.seq, start := start,
           end_ := end_, server := d.server, size := d.size,
           filename := d.filename, sha256 := d.sha256 }

/-!
## The retrieval pipeline: `DreamCsc.upload_data_product` in `dream_csc.py`

The pipeline's interactions with the S3 bucket, the HTTP server, the local
filesystem and salobj's `make_key` are collected in an `UploadWorld` of
oracles; the embedding returns the list of side effects performed together
with the call's outcome, so the theorems can speak about which fetches,
uploads and log lines actually happen.
-/

/-- Python list read `xs[i]`: negative indices count from the end,
out-of-range indices raise `IndexError`. -/
def pyListIdx (xs : List ℤ) (i : ℤ) : Except PyExc ℤ :=
  let n : ℤ := xs.length
  let j := if i < 0 then i + n else i
  if 0 ≤ j ∧ j < n then .ok (xs.getD j.toNat 0) else .error .indexError

/-- `pathlib.Path(filename).suffix`: the extension (with its dot) of the
final path component, empty when there is none or the name starts with its
only dot. -/
def pathSuffix (filename : String) : String :=
  let base := (filename.splitOn "/").getLastD ""
  let parts := base.splitOn "."
  match parts with
  | [] => ""
  | [_] => ""
  | first :: rest =>
    if first = "" ∧ rest.length = 1 then ""
    else
      let last := rest.getLastD ""
      if last = "" then "" else "." ++ last

/-- `datetime.fromtimestamp(v, tz=timezone.utc)`: accepts a number (seconds
since the Unix epoch); an astropy `Time` or a string is not a number and
raises `TypeError`. -/
def datetimeFromTimestamp : TimeVal → Except PyExc ℚ
  | .float q => .ok q
  | .int n => .ok (n : ℚ)
  | _ => .error .typeError

/-- The attribute access `data_product.revision` in the ArchiveKey f-string:
the `DataProduct` dataclass declares no `revision` field, so the access
raises `AttributeError`. -/
def dataProductRevision (_ : DataProduct) : Except PyExc ℤ :=
  .error .attributeError

/-- The derivation inputs handed to `salobj.AsyncS3Bucket.make_key`: the
start-of-observation date string, and the `other` f-string's components
(start timestamp, source server, kind, subtype, first and last sequence
numbers, revision) plus the filename's suffix. -/
structure ArchiveKeyInputs where
  date : IsoString
  server : String
  kind : String
  product_type : String
  seqFirst : ℤ
  seqLast : ℤ
  revision : ℤ
  suffix : String
deriving DecidableEq, Repr

/-- The configuration fields `upload_data_product` reads. -/
structure UploadConfig where
  skip_tmpdata_products : Bool
  data_product_host : List (String × String)
deriving Repr

/-- The external world of `upload_data_product`: the S3 bucket, the HTTP
client, the local disk and salobj's `make_key`. -/
structure UploadWorld where
  makeKey : ArchiveKeyInputs → String
  s3exists : String → Bool
  /-- The redirect-resolving `client.get` plus `raise_for_status`; returns
  the final URL. -/
  httpGet : String → Except PyExc String
  /-- The streaming GET plus `raise_for_status`. -/
  httpStream : String → Except PyExc Unit
  /-- `save_to_s3` (the bucket upload, which may raise). -/
  s3upload : String → Except PyExc Unit
  /-- `save_to_local_disk`. -/
  localWrite : String → Except PyExc Unit

/-- The observable side effects of one `upload_data_product` call. -/
inductive UploadAction where
  | logSkipTmp (filename : String)
  | logSkipExists (key : String) (sha256 : String)
  | httpGet (url : String)
  | httpStream (url : String)
  | s3upload (key : String)
  | lfaEvent (key : String)
  | logUploadS3Failed (key : String)
  | localWrite (key : String)
deriving DecidableEq, Repr

/-- `DreamCsc.upload_data_product(data_product)`: the action trace performed
and the call's outcome.  The embedding follows the source line by line:
tmpdata skip; ArchiveKey derivation (`datetime.fromtimestamp` on the
product's `start`, the `other` f-string with `seq[0]`, `seq[-1]` and
`data_product.revision`, then `make_key`); the existence check, whose branch
logs the skip but — as in the source — does not return; the host lookup; the
HTTP fetch; the S3 upload with local-disk fallback. -/
def upload_data_product (cfg : UploadConfig) (w : UploadWorld)
    (dp : DataProduct) : List UploadAction × Except PyExc Unit :=
  if cfg.skip_tmpdata_products && dp.filename.startsWith "/tmpdata/" then
    ([.logSkipTmp dp.filename], .ok ())
  else
    let product_type := match dp.type with | none => "" | some t => "_" ++ t
    -- start_time = datetime.fromtimestamp(data_product.start, tz=utc):
    -- `start` is an astropy Time here, which raises TypeError
    match datetimeFromTimestamp dp.start with
    | .error e => ([], .error e)
    | .ok stamp =>
      -- isoformat(timespec="milliseconds") of the computed datetime
      let start_time_str : IsoString := ⟨(1000 * stamp).floor⟩
      match pyListIdx dp.seq 0 with
      | .error e => ([], .error e)
      | .ok seqFirst =>
        match pyListIdx dp.seq (-1) with
        | .error e => ([], .error e)
        | .ok seqLast =>
          match dataProductRevision dp with
          | .error e => ([], .error e)
          | .ok revision =>
            let key := w.makeKey
              { date := start_time_str, server := dp.server, kind := dp.kind,
                product_type := product_type, seqFirst := seqFirst,
                seqLast := seqLast, revision := revision,
                suffix := pathSuffix dp.filename }
            -- the `exists` branch logs the skip but does not return
            let skipLog : List UploadAction :=
              if w.s3exists key then [.logSkipExists key dp.sha256] else []
            match cfg.data_product_host.lookup dp.server with
            | none =>
              (skipLog,
               .error (.runtimeError "Unexpected data product server specified"))
            | some host =>
              let dream_url := "http://" ++ host ++ "/" ++ dp.filename
              match w.httpGet dream_url with
              | .error e => (skipLog ++ [.httpGet dream_url], .error e)
              | .ok final_url =>
                match w.httpStream final_url with
                | .error e =>
                  (skipLog ++ [.httpGet dream_url, .httpStream final_url],
                   .error e)
                | .ok _ =>
                  match w.s3upload key with
                  | .ok _ =>
                    (skipLog ++ [.httpGet dream_url, .httpStream final_url,
                                 .s3upload key, .lfaEvent key], .ok ())
                  | .error _ =>
                    match w.localWrite key with
                    | .ok _ =>
                      (skipLog ++ [.httpGet dream_url, .httpStream final_url,
                                   .s3upload key, .logUploadS3Failed key,
                                   .localWrite key], .ok ())
                    | .error e =>
                      (skipLog ++ [.httpGet dream_url, .httpStream final_url,
                                   .s3upload key, .logUploadS3Failed key],
                       .error e)

/-!
## The data-product loop: `DreamCsc.data_product_loop` in `dream_csc.py`

One poll cycle iterates the products returned by `get_new_data_products` in
order; each product is logged and then archived inside a `try` whose
`except Exception` logs the failure and continues with the next product.
-/

/-- Observable events of one data-product poll cycle. -/
inductive CycleEvent where
  | logNew (filename : String)
  | attempt (dp : DataProduct) (actions : List UploadAction)
  | logUploadFailed (dp : DataProduct)
deriving DecidableEq, Repr

/-- The `for data_product in data_products` body of one poll cycle of
`data_product_loop`: log, attempt the upload, and on any exception log
`"Upload data product failed"` and continue. -/
def data_product_cycle
    (upload : DataProduct → List UploadAction × Except PyExc Unit) :
    List DataProduct → List CycleEvent
  | [] => []
  | dp :: rest =>
    let r := upload dp
    ([.logNew dp.filename, .attempt dp r.1] ++
      (match r.2 with
       | .ok _ => []
       | .error _ => [.logUploadFailed dp])) ++
    data_product_cycle upload rest

/-!
## The supervisor: `DreamCsc.health_monitor` reconnect phase

After a monitored loop trips, `health_monitor` disconnects and enters

    attempt_number = 0
    while time.time() - reconnect_time < RECONNECT_TIMEOUT
          and self.summary_state != FAULT:
        attempt_number += 1
        try: await self.connect(); return
        except: sleep(min(MAXIMUM_RECONNECT_WAIT,
                          BASE_RECONNECT_WAIT * 2 ** (attempt_number - 1)))
    await self.fault(..., f"... after {attempt_number} attempts.")

The embedding consumes a trace of per-iteration observations (the clock and
summary-state read by the `while` condition, and whether `connect()`
succeeds); an exhausted trace stands for a clock read at or past the
window's end. -/

/-- `RECONNECT_TIMEOUT` (module constant, seconds). -/
def RECONNECT_TIMEOUT : ℚ := 180

/-- `MAXIMUM_RECONNECT_WAIT` (module constant, seconds). -/
def MAXIMUM_RECONNECT_WAIT : ℚ := 60

/-- `BASE_RECONNECT_WAIT` (module constant, seconds). -/
def BASE_RECONNECT_WAIT : ℚ := 10

/-- The backoff `sleep_time` computed after failed reconnect attempt
number `attempt_number`. -/
def reconnect_sleep_time (attempt_number : ℕ) : ℚ :=
  min MAXIMUM_RECONNECT_WAIT (BASE_RECONNECT_WAIT * 2 ^ (attempt_number - 1))

/-- What one iteration of the reconnect `while` loop observes. -/
structure ReconnectCheck where
  /-- `time.time() - reconnect_time` at the `while` condition. -/
  elapsed : ℚ
  /-- `self.summary_state == salobj.State.FAULT` at the `while` condition. -/
  faultState : Bool
  /-- whether `await self.connect()` succeeds in this iteration. -/
  connectOk : Bool
deriving DecidableEq, Repr

/-- Observable events of the reconnect phase of `health_monitor`. -/
inductive HMEvent where
  | attempt (n : ℕ)
  | sleep (t : ℚ)
  | reconnected (attempts : ℕ)
  | fault (attempts : ℕ)
deriving DecidableEq, Repr

/-- The reconnect `while` loop with current `attempt_number`: each pass
re-checks the window and the summary state, increments the attempt counter,
tries to connect (returning on success), and sleeps the backoff otherwise;
leaving the loop reaches the single `self.fault(...)` call, which reports
the attempt count. -/
def reconnect_loop (attempt_number : ℕ) :
    List ReconnectCheck → List HMEvent
  | [] => [.fault attempt_number]
  | c :: rest =>
    if c.elapsed < RECONNECT_TIMEOUT ∧ c.faultState = false then
      if c.connectOk then
        [.attempt (attempt_number + 1), .reconnected (attempt_number + 1)]
      else
        [.attempt (attempt_number + 1),
         .sleep (reconnect_sleep_time (attempt_number + 1))] ++
        reconnect_loop (attempt_number + 1) rest
    else
      [.fault attempt_number]

/-- The reconnect phase of `DreamCsc.health_monitor`, starting from
`attempt_number = 0`. -/
def health_monitor_reconnect (checks : List ReconnectCheck) : List HMEvent :=
  reconnect_loop 0 checks

/-- The attempt counts reported by `fault` events (the fatal-condition
callback invocations), in order. -/
def faultReports (evs : List HMEvent) : List ℕ :=
  evs.filterMap (fun e => match e with | .fault n => some n | _ => none)

/-- The attempt counts reported by `reconnected` events, in order. -/
def reconnectReports (evs : List HMEvent) : List ℕ :=
  evs.filterMap (fun e => match e with | .reconnected n => some n | _ => none)

/-- The number of connect attempts in an event trace. -/
def attemptCount (evs : List HMEvent) : ℕ :=
  (evs.filterMap (fun e => match e with | .attempt n => some n | _ => none)).length

/-- The backoff waits slept, in order. -/
def sleeps (evs : List HMEvent) : List ℚ :=
  evs.filterMap (fun e => match e with | .sleep t => some t | _ => none)

/-!
## Observation helpers and concrete inputs used by the theorems below
-/

/-- The products for which an upload was attempted in a poll cycle, in
order. -/
def attemptedProducts (evs : List CycleEvent) : List DataProduct :=
  evs.filterMap (fun e => match e with | .attempt dp _ => some dp | _ => none)

/-- The products whose upload attempt ended in a caught-and-logged
exception, in order. -/
def failedProducts (evs : List CycleEvent) : List DataProduct :=
  evs.filterMap (fun e => match e with | .logUploadFailed dp => some dp | _ => none)

/-- Whether an embedded call returned normally. -/
def isOkB : Except PyExc Unit → Bool
  | .ok _ => true
  | .error _ => false

/-- Whether `get_events_camera` must emit for the unit with source `s` and
newly built field-set `ev`, given the cache at the start of the cycle: there
is no cached field-set, or the cached one differs. -/
def cacheShouldEmit (cache : CameraCache) (s : ℤ) (ev : TopicData) : Prop :=
  ∀ old, cache.lookup s = some old → Json.beqDict old ev = false

/-- The first data product served by the bundled `MockDream`
(`mock/mock_dream.py`), after `DataProduct.from_dict`: its `start` is an
astropy `Time` (here the Unix value of 2025-02-14T21:02:55.206869, as the
ISO ms rendering would reparse it). -/
def mockProduct1 : DataProduct :=
  { kind := "cloud", type := some "flat", seq := [41, 51, 73],
    start := .time (1739566975206 / 1000), end_ := .time (1739573342688 / 1000),
    server := "N", size := 22, filename := "product1.txt",
    sha256 := "23ff1547b9c233d672a844a319429224973d3d80f875db7e06c6264fb066d9a2" }

/-- The same product but with `start`/`end` given as plain Unix-timestamp
floats (the numeric form `datetime.fromtimestamp` expects). -/
def mockProduct1Float : DataProduct :=
  { mockProduct1 with
    start := .float (1739566975206 / 1000), end_ := .float (1739573342688 / 1000) }

/-- An upload world in which every external interaction succeeds and the
derived key already exists in the S3 bucket. -/
def testWorld : UploadWorld :=
  { makeKey := fun _ => "testkey.txt", s3exists := fun _ => true,
    httpGet := fun u => .ok u, httpStream := fun _ => .ok (),
    s3upload := fun _ => .ok (), localWrite := fun _ => .ok () }

/-- An upload configuration with the tmpdata skip disabled and the mock's
"N" server configured. -/
def testConfig : UploadConfig :=
  { skip_tmpdata_products := false, data_product_host := [("N", "dream-n")] }

/-- A status document whose `errors` entry is present but malformed (an
integer instead of a list of strings). -/
def malformedStatusDoc : Json := .dict [("errors", .int 0)]

/-- A camera status dict with every field `None` (all extractions then take
their null branches and no external conversion is consulted). -/
def nullCameraStatus : Json :=
  .dict [("camera_mode", .null), ("num_blanks", .null), ("num_darks", .null),
         ("num_bias", .null), ("num_flats", .null), ("num_science", .null),
         ("num_missed", .null), ("last_image_seq", .null),
         ("last_image_triggertime", .null), ("last_image_timing_latency", .null),
         ("last_image_usb_latency", .null), ("last_image_artificial_latency", .null),
         ("last_image_type", .null), ("last_image_pixel_median", .null)]

/-- A status document with a single camera `"E"` whose fields are all
`None`. -/
def singleCameraDoc : Json :=
  .dict [("cameras", .dict [("E", nullCameraStatus)])]

/-- The `evt_camera` field-set that `nullCameraStatus` builds for the camera
with `DREAM.Camera` value `s`. -/
def nullCameraEvent (s : ℤ) : TopicData :=
  [("source", .int s),
   ("cameraMode", .int (-1)),
   ("nBlank", .int (-1)),
   ("nDark", .int (-1)),
   ("nBias", .int (-1)),
   ("nFlat", .int (-1)),
   ("nScience", .int (-1)),
   ("nMissed", .int (-1)),
   ("lastSequenceNumber", .int (-1)),
   ("lastTriggerTime", .float .nan),
   ("lastImageTimingLatency", .float .nan),
   ("lastImageUSBLatency", .float .nan),
   ("lastImageArtificialLatency", .float .nan),
   ("lastImageType", .int (-1)),
   ("lastImagePixelMedian", .float .nan)]

/-!
# Theorems

Helper lemmas first, then one theorem per claim (with witnesses for the
theorems that carry hypotheses).
-/

/-- Bitwise or of an integer with zero on the left. -/
theorem int_zero_lor (v : ℤ) : Int.lor 0 v = v := by
  cases v with
  | ofNat n => simp [Int.lor]
  | negSucc n => simp [Int.lor, Nat.ldiff]

/-- In a reconnect run in which no attempt succeeds, the fatal-condition
callback fires exactly once and reports `n` plus the number of attempts
made. -/
theorem reconnect_loop_all_fail (n : ℕ) (checks : List ReconnectCheck) :
    (∀ c ∈ checks, c.connectOk = false) →
    faultReports (reconnect_loop n checks) =
      [n + attemptCount (reconnect_loop n checks)] ∧
    reconnectReports (reconnect_loop n checks) = [] := by
  induction checks generalizing n with
  | nil =>
    intro _
    simp [reconnect_loop, faultReports, attemptCount, reconnectReports]
  | cons c rest ih =>
    intro h
    have hc : c.connectOk = false := h c (List.mem_cons_self c rest)
    by_cases hcond : c.elapsed < RECONNECT_TIMEOUT ∧ c.faultState = false
    · have hstep : reconnect_loop n (c :: rest) =
          HMEvent.attempt (n + 1) ::
            HMEvent.sleep (reconnect_sleep_time (n + 1)) ::
              reconnect_loop (n + 1) rest := by
        simp [reconnect_loop, hcond.1, hcond.2, hc]
      obtain ⟨ih1, ih2⟩ := ih (n + 1) (fun x hx => h x (List.mem_cons_of_mem c hx))
      rw [hstep]
      refine ⟨?_, ?_⟩
      · simp only [faultReports, attemptCount, List.filterMap_cons] at ih1 ⊢
        rw [ih1]
        simp
        omega
      · simpa [reconnectReports, List.filterMap_cons] using ih2
    · have hstep : reconnect_loop n (c :: rest) = [HMEvent.fault n] := by
        rw [reconnect_loop, if_neg hcond]
      rw [hstep]
      simp [faultReports, attemptCount, reconnectReports]

/-- In a reconnect run whose attempts fail until one succeeds within the
window, the fatal-condition callback never fires and the run reports the
successful attempt's number. -/
theorem reconnect_loop_success (pre : List ReconnectCheck) (c : ReconnectCheck)
    (rest : List ReconnectCheck) (n : ℕ) :
    (∀ x ∈ pre,
      x.elapsed < RECONNECT_TIMEOUT ∧ x.faultState = false ∧ x.connectOk = false) →
    c.elapsed < RECONNECT_TIMEOUT → c.faultState = false → c.connectOk = true →
    faultReports (reconnect_loop n (pre ++ c :: rest)) = [] ∧
    reconnectReports (reconnect_loop n (pre ++ c :: rest)) = [n + pre.length + 1] := by
  induction pre generalizing n with
  | nil =>
    intro _ h1 h2 h3
    simp [reconnect_loop, h1, h2, h3, faultReports, reconnectReports]
  | cons x pre ih =>
    intro hpre h1 h2 h3
    obtain ⟨hx1, hx2, hx3⟩ := hpre x (List.mem_cons_self x pre)
    have hstep : reconnect_loop n ((x :: pre) ++ c :: rest) =
        HMEvent.attempt (n + 1) ::
          HMEvent.sleep (reconnect_sleep_time (n + 1)) ::
            reconnect_loop (n + 1) (pre ++ c :: rest) := by
      simp [reconnect_loop, hx1, hx2, hx3]
    obtain ⟨ih1, ih2⟩ :=
      ih (n + 1) (fun y hy => hpre y (List.mem_cons_of_mem x hy)) h1 h2 h3
    rw [hstep]
    refine ⟨?_, ?_⟩
    · simpa [faultReports, List.filterMap_cons] using ih1
    · simp only [reconnectReports, List.filterMap_cons] at ih2 ⊢
      rw [ih2]
      simp
      omega

/-- **C3**: for every reconnect attempt number `n ≥ 1`, the wait slept after
a failed attempt equals `min(max_wait, base_wait * 2^(n-1))`; in particular,
with `base_wait = 10` and `max_wait = 60`, the waits for attempts 1..5 of a
run of failed attempts are exactly 10, 20, 40, 60, 60. -/
theorem reconnect_backoff_formula :
    (∀ n : ℕ, 1 ≤ n → reconnect_sleep_time n =
      min MAXIMUM_RECONNECT_WAIT (BASE_RECONNECT_WAIT * 2 ^ (n - 1))) ∧
    (∀ (n : ℕ) (c : ReconnectCheck) (rest : List ReconnectCheck),
      c.elapsed < RECONNECT_TIMEOUT → c.faultState = false → c.connectOk = false →
      reconnect_loop n (c :: rest) =
        HMEvent.attempt (n + 1) ::
          HMEvent.sleep
            (min MAXIMUM_RECONNECT_WAIT (BASE_RECONNECT_WAIT * 2 ^ n)) ::
            reconnect_loop (n + 1) rest) ∧
    sleeps (health_monitor_reconnect (List.replicate 5
      { elapsed := 0, faultState := false, connectOk := false })) =
      [10, 20, 40, 60, 60] := by
  refine ⟨fun n _ => rfl, ?_, ?_⟩
  · intro n c rest h1 h2 h3
    simp [reconnect_loop, h1, h2, h3, reconnect_sleep_time]
  · norm_num [health_monitor_reconnect, reconnect_loop, reconnect_sleep_time,
      sleeps, RECONNECT_TIMEOUT, MAXIMUM_RECONNECT_WAIT, BASE_RECONNECT_WAIT,
      List.replicate, min_def, List.filterMap_cons]

/-- **C3 witness**: the general backoff formula evaluated at attempt 4. -/
theorem reconnect_backoff_formula_witness :
    reconnect_sleep_time 4 =
      min MAXIMUM_RECONNECT_WAIT (BASE_RECONNECT_WAIT * 2 ^ (4 - 1)) :=
  reconnect_backoff_formula.1 4 (by decide)

/-- **C4**: if the reconnect window elapses without a successful reconnect
(no attempt succeeds), `health_monitor` transitions to FAULT and invokes the
fatal-condition callback exactly once, reporting exactly the number of
attempts actually made; if instead some attempt succeeds within the window,
the run reports the reconnect and never faults. -/
theorem health_monitor_fault_exactly_once :
    (∀ checks : List ReconnectCheck, (∀ c ∈ checks, c.connectOk = false) →
      faultReports (health_monitor_reconnect checks) =
        [attemptCount (health_monitor_reconnect checks)] ∧
      reconnectReports (health_monitor_reconnect checks) = []) ∧
    (∀ (pre : List ReconnectCheck) (c : ReconnectCheck)
       (rest : List ReconnectCheck),
      (∀ x ∈ pre,
        x.elapsed < RECONNECT_TIMEOUT ∧ x.faultState = false ∧
          x.connectOk = false) →
      c.elapsed < RECONNECT_TIMEOUT → c.faultState = false → c.connectOk = true →
      faultReports (health_monitor_reconnect (pre ++ c :: rest)) = [] ∧
      reconnectReports (health_monitor_reconnect (pre ++ c :: rest)) =
        [pre.length + 1]) := by
  constructor
  · intro checks h
    have := reconnect_loop_all_fail 0 checks h
    simpa [health_monitor_reconnect] using this
  · intro pre c rest hpre h1 h2 h3
    have := reconnect_loop_success pre c rest 0 hpre h1 h2 h3
    simpa [health_monitor_reconnect] using this

/-- **C4 witness**: a window of two failed attempts faults once, reporting
two attempts. -/
theorem health_monitor_fault_exactly_once_witness :
    faultReports (health_monitor_reconnect
      [{ elapsed := 0, faultState := false, connectOk := false },
       { elapsed := 30, faultState := false, connectOk := false }]) =
      [attemptCount (health_monitor_reconnect
        [{ elapsed := 0, faultState := false, connectOk := false },
         { elapsed := 30, faultState := false, connectOk := false }])] ∧
    reconnectReports (health_monitor_reconnect
      [{ elapsed := 0, faultState := false, connectOk := false },
       { elapsed := 30, faultState := false, connectOk := false }]) = [] :=
  health_monitor_fault_exactly_once.1
    [{ elapsed := 0, faultState := false, connectOk := false },
     { elapsed := 30, faultState := false, connectOk := false }]
    (by decide)

/-- **C6**: one data-product poll cycle attempts the upload of every product
returned, exactly once each and in the returned order, and the products
whose upload raised (the exception being caught and logged) are exactly
those for which the archive call failed — a failure never prevents the
remaining products of the cycle from being processed. -/
theorem data_product_cycle_processes_all
    (upload : DataProduct → List UploadAction × Except PyExc Unit)
    (products : List DataProduct) :
    attemptedProducts (data_product_cycle upload products) = products ∧
    failedProducts (data_product_cycle upload products) =
      products.filter (fun dp => !isOkB (upload dp).2) := by
  induction products with
  | nil => simp [data_product_cycle, attemptedProducts, failedProducts]
  | cons dp rest ih =>
    obtain ⟨ih1, ih2⟩ := ih
    simp only [attemptedProducts, failedProducts] at ih1 ih2 ⊢
    cases hru : (upload dp).2 with
    | ok u =>
      refine ⟨?_, ?_⟩ <;>
        simp [data_product_cycle, hru, List.filterMap_cons, ih1, ih2,
          List.filter_cons, isOkB]
    | error e =>
      refine ⟨?_, ?_⟩ <;>
        simp [data_product_cycle, hru, List.filterMap_cons, ih1, ih2,
          List.filter_cons, isOkB]

/-- **C2** (code bug): evaluating `upload_data_product` at the mock's first
data product with the derived key already present in the bucket
(`s3exists ≡ true`): instead of skipping the fetch/upload and logging the
skip, the call raises `TypeError` while deriving the key
(`datetime.fromtimestamp` is applied to the product's astropy `Time`), so
it performs no action at all; the `exists` branch is dead code, and even it
lacks the `return` that the skip would require. -/
theorem upload_existing_key_not_skipped :
    upload_data_product testConfig testWorld mockProduct1 =
      ([], .error .typeError) := by
  rfl

/-- **C5** (code bug): even for a product whose `start` is the plain Unix
float the key derivation expects, the derivation raises `AttributeError`,
because the `other` f-string reads `data_product.revision` and the
`DataProduct` dataclass carries no `revision` field — so no `DataProduct`
carries all of the claimed ArchiveKey derivation inputs, and no key is ever
derived. -/
theorem archive_key_derivation_missing_revision :
    upload_data_product testConfig testWorld mockProduct1Float =
      ([], .error .attributeError) := by
  rfl

/-- **C10**: `DataProduct.from_dict ∘ DataProduct.to_dict` reconstructs the
product field-wise, the two timestamps round-tripping through their ISO
string form (millisecond precision); in particular the reconstruction is
exactly the original product whenever its timestamps carry whole
milliseconds, as every ISO-parsed timestamp does. -/
theorem dataProduct_roundtrip (p : DataProduct) (ts te : ℚ)
    (hs : p.start = .time ts) (he : p.end_ = .time te) :
    ∃ d, DataProduct.to_dict p = .ok d ∧
      DataProduct.from_dict d = .ok { p with
        start := .time (((round (1000 * ts) : ℤ) : ℚ) / 1000),
        end_ := .time (((round (1000 * te) : ℤ) : ℚ) / 1000) } ∧
      (∀ zs ze : ℤ, ts = (zs : ℚ) / 1000 → te = (ze : ℚ) / 1000 →
        DataProduct.from_dict d = .ok p) := by
  refine ⟨{ kind := p.kind, type := p.type, seq := p.seq,
            start := .iso (timeIso ts), end_ := .iso (timeIso te),
            server := p.server, size := p.size, filename := p.filename,
            sha256 := p.sha256 }, ?_, ?_, ?_⟩
  · simp [DataProduct.to_dict, hs, he, TimeVal.isoAttr, Bind.bind, Except.bind,
      Pure.pure, Except.pure]
  · simp [DataProduct.from_dict, timeOf, timeIso, Bind.bind, Except.bind,
      Pure.pure, Except.pure]
  · intro zs ze hzs hze
    have h1 : round (1000 * ts) = zs := by
      rw [hzs]
      rw [show (1000 : ℚ) * ((zs : ℚ) / 1000) = (zs : ℚ) by field_simp]
      exact round_intCast zs
    have h2 : round (1000 * te) = ze := by
      rw [hze]
      rw [show (1000 : ℚ) * ((ze : ℚ) / 1000) = (ze : ℚ) by field_simp]
      exact round_intCast ze
    simp [DataProduct.from_dict, timeOf, timeIso, Bind.bind, Except.bind,
      Pure.pure, Except.pure, h1, h2]
    cases p
    simp_all

/-- **C10 witness**: the round trip evaluated at the mock's first data
product, whose timestamps carry whole milliseconds. -/
theorem dataProduct_roundtrip_witness :
    ∃ d, DataProduct.to_dict mockProduct1 = .ok d ∧
      DataProduct.from_dict d = .ok { mockProduct1 with
        start := .time (((round ((1000 : ℚ) * (1739566975206 / 1000)) : ℤ) : ℚ) / 1000),
        end_ := .time (((round ((1000 : ℚ) * (1739573342688 / 1000)) : ℤ) : ℚ) / 1000) } ∧
      (∀ zs ze : ℤ, (1739566975206 : ℚ) / 1000 = (zs : ℚ) / 1000 →
        (1739573342688 : ℚ) / 1000 = (ze : ℚ) / 1000 →
        DataProduct.from_dict d = .ok mockProduct1) :=
  dataProduct_roundtrip mockProduct1 (1739566975206 / 1000) (1739573342688 / 1000)
    rfl rfl

/-- A successful `write` returns exactly the response read, with the state
advanced, and the response carried a `request_id` matching the identifier
just sent and an `"ok"` result. -/
theorem write_ok_shape (st : ModelState) (resp : Response)
    (out : Response × ModelState) :
    DreamModel.write st resp = .ok out →
    out = (resp, { st with index := st.index + 1 }) ∧
    ∃ rid res,
      (Json.dict resp).getItem "request_id" = .ok rid ∧
      pyEqInt rid (st.index + 1) = true ∧
      (Json.dict resp).getItem "result" = .ok res ∧
      pyEqStr res "ok" = true := by
  intro h
  unfold DreamModel.write at h
  by_cases hc : st.connected = true
  · rw [if_neg (by simp [hc])] at h
    cases hrid : (Json.dict resp).getItem "request_id" with
    | error e => rw [hrid] at h; simp at h
    | ok rid =>
      rw [hrid] at h
      dsimp only at h
      by_cases hq : pyEqInt rid (↑st.index + 1) = true
      · rw [if_neg (by simp [hq])] at h
        cases hres : (Json.dict resp).getItem "result" with
        | error e => rw [hres] at h; simp at h
        | ok res =>
          rw [hres] at h
          dsimp only at h
          by_cases hok : pyEqStr res "ok" = true
          · rw [if_neg (by simp [hok])] at h
            exact ⟨by simpa using h.symm, rid, res, rfl, hq, rfl, hok⟩
          · rw [if_pos (by simp [hok])] at h; simp at h
      · rw [if_pos (by simp [hq])] at h; simp at h
  · rw [if_pos (by simp [hc])] at h; simp at h

/-- Every exception `write` raises is a `RuntimeError`. -/
theorem write_error_shape (st : ModelState) (resp : Response) (e : PyExc) :
    DreamModel.write st resp = .error e → ∃ msg, e = .runtimeError msg := by
  intro h
  unfold DreamModel.write at h
  by_cases hc : st.connected = true
  · rw [if_neg (by simp [hc])] at h
    cases hrid : (Json.dict resp).getItem "request_id" with
    | error e' => rw [hrid] at h; exact ⟨_, by simpa using h.symm⟩
    | ok rid =>
      rw [hrid] at h
      dsimp only at h
      by_cases hq : pyEqInt rid (↑st.index + 1) = true
      · rw [if_neg (by simp [hq])] at h
        cases hres : (Json.dict resp).getItem "result" with
        | error e' => rw [hres] at h; exact ⟨_, by simpa using h.symm⟩
        | ok res =>
          rw [hres] at h
          dsimp only at h
          by_cases hok : pyEqStr res "ok" = true
          · rw [if_neg (by simp [hok])] at h; simp at h
          · rw [if_pos (by simp [hok])] at h
            exact ⟨_, by simpa using h.symm⟩
      · rw [if_pos (by simp [hq])] at h
        exact ⟨_, by simpa using h.symm⟩
  · rw [if_pos (by simp [hc])] at h
    exact ⟨_, by simpa using h.symm⟩

/-- A successful sequence of `write` calls returns exactly the responses
read, in order, advancing the identifier counter once per call. -/
theorem writeSeq_ok_spec (resps : List Response) :
    ∀ (st : ModelState) (outs : List Response) (st' : ModelState),
    DreamModel.writeSeq st resps = .ok (outs, st') →
    outs = resps ∧ st'.index = st.index + resps.length := by
  induction resps with
  | nil =>
    intro st outs st' h
    simp only [DreamModel.writeSeq] at h
    obtain ⟨h1, h2⟩ := by simpa using h
    simp [← h1, ← h2]
  | cons r rs ih =>
    intro st outs st' h
    simp only [DreamModel.writeSeq, Bind.bind, Except.bind] at h
    cases hw : DreamModel.write st r with
    | error e => rw [hw] at h; exact absurd h (by simp)
    | ok o =>
      rw [hw] at h
      obtain ⟨o1, st1⟩ := o
      dsimp only at h
      cases hs2 : DreamModel.writeSeq st1 rs with
      | error e => rw [hs2] at h; exact absurd h (by simp)
      | ok o2 =>
        rw [hs2] at h
        obtain ⟨os, st2⟩ := o2
        obtain ⟨h1, h2⟩ := by simpa [Pure.pure, Except.pure] using h
        obtain ⟨ho, -⟩ := write_ok_shape st r (o1, st1) hw
        have hst1 : st1 = { st with index := st.index + 1 } :=
          congrArg Prod.snd ho
        have ho1 : o1 = r := congrArg Prod.fst ho
        obtain ⟨ihs, ihn⟩ := ih st1 os st2 hs2
        subst h1 h2
        constructor
        · rw [ho1, ihs]
        · rw [ihn, hst1]
          simp
          omega

/-- **C1**: through the model's `write` operation, a response is returned to
the caller only if it carries a `request_id` equal to the identifier just
sent and a `result` equal to `"ok"`; in every other case — missing
`request_id`, mismatched `request_id`, missing `result`, or a non-ok
`result` — the call raises an error (a `RuntimeError` in the code), and the
response is never returned as success.  Sequences of calls issued one at a
time return exactly the responses read, one identifier per call. -/
theorem write_response_validation (st : ModelState) (resp : Response) :
    (∀ out, DreamModel.write st resp = .ok out →
      out = (resp, { st with index := st.index + 1 }) ∧
      ∃ rid res,
        (Json.dict resp).getItem "request_id" = .ok rid ∧
        pyEqInt rid (st.index + 1) = true ∧
        (Json.dict resp).getItem "result" = .ok res ∧
        pyEqStr res "ok" = true) ∧
    ((st.connected = false ∨
        (Json.dict resp).getItem "request_id" = .error .keyError ∨
        (∃ rid, (Json.dict resp).getItem "request_id" = .ok rid ∧
          pyEqInt rid (st.index + 1) = false) ∨
        (Json.dict resp).getItem "result" = .error .keyError ∨
        (∃ res, (Json.dict resp).getItem "result" = .ok res ∧
          pyEqStr res "ok" = false)) →
      ∃ msg, DreamModel.write st resp = .error (.runtimeError msg)) ∧
    (∀ (resps outs : List Response) (st' : ModelState),
      DreamModel.writeSeq st resps = .ok (outs, st') →
      outs = resps ∧ st'.index = st.index + resps.length) := by
  refine ⟨fun out h => write_ok_shape st resp out h, ?_,
    fun resps => writeSeq_ok_spec resps st⟩
  intro hdis
  cases hw : DreamModel.write st resp with
  | error e =>
    obtain ⟨msg, he⟩ := write_error_shape st resp e hw
    exact ⟨msg, by rw [he]⟩
  | ok out =>
    exfalso
    obtain ⟨-, rid, res, hrid, hridEq, hres, hresEq⟩ :=
      write_ok_shape st resp out hw
    rcases hdis with h | h | ⟨rid', h, hne⟩ | h | ⟨res', h, hne⟩
    · unfold DreamModel.write at hw
      rw [if_pos (by simp [h])] at hw
      exact absurd hw (by simp)
    · rw [h] at hrid; exact absurd hrid (by simp)
    · rw [h] at hrid
      obtain rfl : rid' = rid := by simpa using hrid
      rw [hridEq] at hne
      exact absurd hne (by simp)
    · rw [h] at hres; exact absurd hres (by simp)
    · rw [h] at hres
      obtain rfl : res' = res := by simpa using hres
      rw [hresEq] at hne
      exact absurd hne (by simp)

/-- **C1 witness**: a response echoing identifier 2 when identifier 1 was
just sent makes the call raise. -/
theorem write_response_validation_witness :
    ∃ msg, DreamModel.write { connected := true, index := 0 }
      [("request_id", Json.int 2), ("result", Json.str "ok")] =
      .error (.runtimeError msg) :=
  (write_response_validation { connected := true, index := 0 }
    [("request_id", Json.int 2), ("result", Json.str "ok")]).2.1
    (Or.inr (Or.inr (Or.inl ⟨Json.int 2, by rfl, by rfl⟩)))

/-- The fold inside `map_to_bitfield` ors the mapped bit values into the
bitmask and appends the unrecognized strings, in order, to the unknowns. -/
theorem map_to_bitfield_fold (mmap : List (String × ℤ)) (msgs : List String) :
    ∀ (bm : ℤ) (acc : List String),
    (msgs.map Json.str).foldlM (map_to_bitfield_step mmap) (bm, acc) =
      .ok (msgs.foldl (fun b s =>
             match mmap.lookup s with
             | some v => Int.lor b v
             | none => b) bm,
           acc ++ msgs.filter (fun s => (mmap.lookup s).isNone)) := by
  induction msgs with
  | nil => intro bm acc; simp [Pure.pure, Except.pure]
  | cons s rest ih =>
    intro bm acc
    cases hl : mmap.lookup s with
    | some v =>
      simp [map_to_bitfield_step, hl, List.foldlM_cons, Bind.bind, Except.bind,
        ih, List.filter_cons]
    | none =>
      simp [map_to_bitfield_step, hl, List.foldlM_cons, Bind.bind, Except.bind,
        ih, List.filter_cons]

/-- **C7**: for the errors list `["Temp hum sensor not reachable"]`, the
bitmask aggregation yields exactly the bit value mapped to that string and
an empty additional-errors string; for `["not a known error"]` it yields
bitmask 0 and additional-errors `"not a known error"`; and in general the
unrecognized strings are preserved verbatim, semicolon-joined, in input
order. -/
theorem translator_bitmask_aggregation (env : Env) :
    map_to_bitfield (.list [.str "Temp hum sensor not reachable"])
        (errorsMap env) =
      .ok (env.errorVal "TemphumError", "") ∧
    map_to_bitfield (.list [.str "not a known error"]) (errorsMap env) =
      .ok (0, "not a known error") ∧
    (∀ (msgs : List String) (mmap : List (String × ℤ)), ∃ bm,
      map_to_bitfield (.list (msgs.map .str)) mmap =
        .ok (bm, String.intercalate ";"
          (msgs.filter (fun s => (mmap.lookup s).isNone)))) := by
  refine ⟨?_, by rfl, ?_⟩
  · have h : map_to_bitfield (.list [.str "Temp hum sensor not reachable"])
        (errorsMap env) =
        .ok (Int.lor 0 (env.errorVal "TemphumError"), "") := rfl
    rw [h, int_zero_lor]
  · intro msgs mmap
    refine ⟨msgs.foldl (fun b s =>
      match mmap.lookup s with
      | some v => Int.lor b v
      | none => b) 0, ?_⟩
    simp [map_to_bitfield, Bind.bind, Except.bind, Pure.pure, Except.pure,
      map_to_bitfield_fold]

/-- `__call__`'s builder loop can never end in a `KeyError`: the only
`KeyError` sources are the builders themselves, and those are caught. -/
theorem callLoop_never_keyError (bs : List (String × Builder)) :
    ∀ (cache : CameraCache) (doc : Json) (acc : SampleList),
    (callLoop bs cache doc acc).1 ≠ .error .keyError := by
  induction bs with
  | nil => intro cache doc acc; simp [callLoop]
  | cons b rest ih =>
    intro cache doc acc
    obtain ⟨name, f⟩ := b
    rcases hf : f cache doc with ⟨r, cache'⟩
    cases r with
    | ok out =>
      rw [callLoop, hf]
      exact ih cache' doc (acc ++ out)
    | error e =>
      cases e with
      | keyError => rw [callLoop, hf]; exact ih cache' doc acc
      | typeError => rw [callLoop, hf]; simp
      | attributeError => rw [callLoop, hf]; simp
      | valueError => rw [callLoop, hf]; simp
      | indexError => rw [callLoop, hf]; simp
      | runtimeError msg => rw [callLoop, hf]; simp

/-- **C8 counterexample**: on the status document `{"errors": 0}` the
translator's top-level call raises instead of never failing:
`get_events_camera`'s `KeyError` (there is no `"cameras"` key) is caught,
but `get_event_errors` then raises `TypeError` — the membership test
`"Humidity under dome > limit" in dream_status["errors"]` runs on an
integer — and `__call__` catches only `KeyError`, so the `TypeError`
propagates to the caller.  The trace never consults the environment's
enumeration tables, so the concrete `defaultEnv` is inessential. -/
theorem translate_raises_on_malformed_field :
    statusTopicsBuilder_call defaultEnv .nan [] malformedStatusDoc =
      (.error .typeError, []) := by
  rfl

/-- **C8** (amended): the translator's top-level call runs each extraction
function independently and catches exactly `KeyError` — the missing-field
exception — logging it and omitting that function's output while the
remaining functions still run; the call therefore never ends in a
`KeyError`, but an exception of any other class (e.g. a `TypeError` from a
malformed field) propagates out of the call. -/
theorem translate_catches_only_keyerror :
    (∀ (env : Env) (thr : PyFloat) (cache : CameraCache) (doc : Json),
      (statusTopicsBuilder_call env thr cache doc).1 ≠ .error .keyError) ∧
    (∀ (name : String) (f : Builder) (rest : List (String × Builder))
       (cache cache' : CameraCache) (doc : Json) (acc : SampleList),
      f cache doc = (.error .keyError, cache') →
      callLoop ((name, f) :: rest) cache doc acc = callLoop rest cache' doc acc) ∧
    (∀ (name : String) (f : Builder) (rest : List (String × Builder))
       (cache cache' : CameraCache) (doc : Json) (acc : SampleList)
       (out : SampleList),
      f cache doc = (.ok out, cache') →
      callLoop ((name, f) :: rest) cache doc acc =
        callLoop rest cache' doc (acc ++ out)) ∧
    (∀ (name : String) (f : Builder) (rest : List (String × Builder))
       (cache cache' : CameraCache) (doc : Json) (acc : SampleList)
       (e : PyExc),
      e ≠ .keyError → f cache doc = (.error e, cache') →
      callLoop ((name, f) :: rest) cache doc acc = (.error e, cache')) := by
  refine ⟨?_, ?_, ?_, ?_⟩
  · intro env thr cache doc
    exact callLoop_never_keyError (builder_functions env thr) cache doc []
  · intro name f rest cache cache' doc acc hf
    rw [callLoop, hf]
  · intro name f rest cache cache' doc acc out hf
    rw [callLoop, hf]
  · intro name f rest cache cache' doc acc e he hf
    rw [callLoop, hf]
    cases e with
    | keyError => exact absurd rfl he
    | typeError => rfl
    | attributeError => rfl
    | valueError => rfl
    | indexError => rfl
    | runtimeError msg => rfl

/-- **C8 witness**: a builder raising `KeyError` (here `tel_dome` on an
empty document) is skipped and the loop continues with the remaining
builders. -/
theorem translate_catches_only_keyerror_witness :
    callLoop [("tel_dome", liftBuilder get_telemetry_dome)] [] (Json.dict []) [] =
      callLoop [] [] (Json.dict []) [] :=
  translate_catches_only_keyerror.2.1 "tel_dome" (liftBuilder get_telemetry_dome)
    [] [] [] (Json.dict []) [] (by rfl)

/-- Updating a cache entry makes the updated key map to the new value. -/
theorem assocSet_lookup_self (l : CameraCache) (k : ℤ) (v : TopicData) :
    (assocSet l k v).lookup k = some v := by
  induction l with
  | nil => simp [assocSet, List.lookup]
  | cons p rest ih =>
    obtain ⟨k', v'⟩ := p
    by_cases h : k' = k
    · simp [assocSet, h, List.lookup]
    · simp only [assocSet, if_neg h, List.lookup]
      rw [show (k == k') = false by simpa using fun hk => h hk.symm]
      exact ih

/-- Updating a cache entry leaves every other key's value unchanged. -/
theorem assocSet_lookup_ne (l : CameraCache) (k z : ℤ) (v : TopicData)
    (h : z ≠ k) :
    (assocSet l k v).lookup z = l.lookup z := by
  induction l with
  | nil =>
    simp only [assocSet, List.lookup]
    rw [show (z == k) = false by simpa using h]
  | cons p rest ih =>
    obtain ⟨k', v'⟩ := p
    by_cases hk : k' = k
    · subst hk
      simp only [assocSet, if_pos rfl, List.lookup]
      rw [show (z == k') = false by simpa using h]
    · simp only [assocSet, if_neg hk, List.lookup]
      cases hzk : z == k'
      · exact ih
      · rfl

/-- A successfully built camera event starts with its `source` entry. -/
theorem buildCameraEvent_ok_shape (env : Env) (s : ℤ) (cam : Json)
    (ev : TopicData) :
    buildCameraEvent env s cam = .ok ev →
    ∃ rest, ev = ("source", Json.int s) :: rest := by
  unfold buildCameraEvent
  cases h : buildCameraEventRest env cam with
  | error e => simp [Except.map]
  | ok rest =>
    simp only [Except.map]
    intro hev
    exact ⟨rest, by simpa using hev.symm⟩

/-- The emission condition computed by the loop agrees with
`cacheShouldEmit`. -/
theorem cameraChanged_iff (cache : CameraCache) (s : ℤ) (ev : TopicData) :
    cameraChanged cache s ev = true ↔ cacheShouldEmit cache s ev := by
  unfold cameraChanged cacheShouldEmit
  cases h : cache.lookup s with
  | none => simp
  | some old => simp

/-- `cacheShouldEmit` depends on the cache only through the unit's entry. -/
theorem cacheShouldEmit_congr (c1 c2 : CameraCache) (s : ℤ) (ev : TopicData)
    (h : c1.lookup s = c2.lookup s) :
    cacheShouldEmit c1 s ev ↔ cacheShouldEmit c2 s ev := by
  unfold cacheShouldEmit
  rw [h]

/-- Specification of the per-camera loop of `get_events_camera`, for a
successful pass over units with distinct names mapping to distinct sources:
the output extends the accumulator with camera events only; cache entries of
unprocessed sources are untouched; and each processed unit's entry is set to
its newly built field-set, which is appended to the output exactly when the
entry was absent or different at that unit's iteration. -/
theorem get_events_camera_loop_spec (env : Env) (xs : List (String × Json)) :
    ∀ (acc : SampleList) (cache : CameraCache) (events : SampleList)
      (cache' : CameraCache),
    (List.map Prod.fst xs).Nodup →
    (∀ k1 k2 s, k1 ∈ List.map Prod.fst xs → k2 ∈ List.map Prod.fst xs →
      (camerasMap env).lookup k1 = some s →
      (camerasMap env).lookup k2 = some s → k1 = k2) →
    get_events_camera_loop env xs acc cache = (.ok events, cache') →
    (∃ extra, events = acc ++ extra ∧
      ∀ x ∈ extra, ∃ cid cam s ev, (cid, cam) ∈ xs ∧
        (camerasMap env).lookup cid = some s ∧
        buildCameraEvent env s cam = .ok ev ∧ x = ("evt_camera", ev)) ∧
    (∀ z, (∀ cid cam, (cid, cam) ∈ xs →
        (camerasMap env).lookup cid ≠ some z) →
      cache'.lookup z = cache.lookup z) ∧
    (∀ cid cam s ev, (cid, cam) ∈ xs →
      (camerasMap env).lookup cid = some s →
      buildCameraEvent env s cam = .ok ev →
      cache'.lookup s = some ev ∧
      (("evt_camera", ev) ∈ events ↔
        (("evt_camera", ev) ∈ acc ∨ cacheShouldEmit cache s ev))) := by
  induction xs with
  | nil =>
    intro acc cache events cache' _ _ h
    obtain ⟨h1, h2⟩ : acc = events ∧ cache = cache' := by
      simpa [get_events_camera_loop, Prod.ext_iff] using h
    subst h1
    subst h2
    refine ⟨⟨[], by simp⟩, fun z _ => rfl, ?_⟩
    intro cid cam s ev hmem
    simp at hmem
  | cons hd rest ih =>
    intro acc cache events cache' hnd hinj hrun
    obtain ⟨cid₀, cam₀⟩ := hd
    rw [get_events_camera_loop] at hrun
    cases hlk : (camerasMap env).lookup cid₀ with
    | none =>
      rw [hlk] at hrun
      simp [Prod.ext_iff] at hrun
    | some s₀ =>
      rw [hlk] at hrun
      dsimp only at hrun
      cases hbd : buildCameraEvent env s₀ cam₀ with
      | error e =>
        rw [hbd] at hrun
        simp [Prod.ext_iff] at hrun
      | ok ev₀ =>
        rw [hbd] at hrun
        dsimp only at hrun
        simp only [List.map_cons, List.nodup_cons] at hnd
        obtain ⟨hnd0, hndr⟩ := hnd
        have hmemr : ∀ k, k ∈ List.map Prod.fst rest →
            k ∈ List.map Prod.fst ((cid₀, cam₀) :: rest) := by
          intro k hk
          simp only [List.map_cons, List.mem_cons]
          exact Or.inr hk
        have hmem₀ : cid₀ ∈ List.map Prod.fst ((cid₀, cam₀) :: rest) := by
          simp
        have hinj' : ∀ k1 k2 s, k1 ∈ List.map Prod.fst rest →
            k2 ∈ List.map Prod.fst rest →
            (camerasMap env).lookup k1 = some s →
            (camerasMap env).lookup k2 = some s → k1 = k2 := by
          intro k1 k2 s h1 h2 e1 e2
          exact hinj k1 k2 s (hmemr k1 h1) (hmemr k2 h2) e1 e2
        obtain ⟨⟨extra, hev, hextra⟩, hpres, hunit⟩ :=
          ih _ (assocSet cache s₀ ev₀) events cache' hndr hinj' hrun
        have hs₀rest : ∀ cid cam, (cid, cam) ∈ rest →
            (camerasMap env).lookup cid ≠ some s₀ := by
          intro cid cam hmem heq
          have hc : cid = cid₀ :=
            hinj cid cid₀ s₀ (hmemr cid (List.mem_map_of_mem _ hmem))
              hmem₀ heq hlk
          subst hc
          exact hnd0 (List.mem_map_of_mem _ hmem)
        have hA : (if cameraChanged cache s₀ ev₀ then
              acc ++ [("evt_camera", ev₀)] else acc) =
            acc ++ (if cameraChanged cache s₀ ev₀ then
              [("evt_camera", ev₀)] else []) := by
          cases cameraChanged cache s₀ ev₀ <;> simp
        obtain ⟨r₀, hr₀⟩ := buildCameraEvent_ok_shape env s₀ cam₀ ev₀ hbd
        refine ⟨⟨(if cameraChanged cache s₀ ev₀ then
            [("evt_camera", ev₀)] else []) ++ extra, ?_, ?_⟩, ?_, ?_⟩
        · rw [hev, hA, List.append_assoc]
        · intro x hx
          rcases List.mem_append.1 hx with hx | hx
          · have hx' : x = ("evt_camera", ev₀) := by
              cases hch : cameraChanged cache s₀ ev₀
              · rw [hch] at hx; simp at hx
              · rw [hch] at hx; simpa using hx
            exact ⟨cid₀, cam₀, s₀, ev₀, List.mem_cons_self _ _, hlk, hbd, hx'⟩
          · obtain ⟨cid, cam, s, ev, hm, h1, h2, h3⟩ := hextra x hx
            exact ⟨cid, cam, s, ev, List.mem_cons_of_mem _ hm, h1, h2, h3⟩
        · intro z hz
          have hz₀ : s₀ ≠ z := by
            intro h
            exact hz cid₀ cam₀ (List.mem_cons_self _ _) (h ▸ hlk)
          rw [hpres z (fun cid cam hm => hz cid cam (List.mem_cons_of_mem _ hm)),
            assocSet_lookup_ne cache s₀ z ev₀ (Ne.symm hz₀)]
        · intro cid cam s ev hmem hlkc hbde
          rcases List.mem_cons.1 hmem with heq | hmem'
          · have hc1 : cid = cid₀ := congrArg Prod.fst heq
            have hc2 : cam = cam₀ := congrArg Prod.snd heq
            subst hc1
            subst hc2
            have hss : s = s₀ := by
              rw [hlkc] at hlk
              simpa using hlk
            subst hss
            have hee : ev = ev₀ := by
              rw [hbde] at hbd
              simpa using hbd
            subst hee
            have g1 : cache'.lookup s = some ev := by
              rw [hpres s hs₀rest, assocSet_lookup_self]
            refine ⟨g1, ?_⟩
            rw [hev, hA, List.append_assoc]
            constructor
            · intro hx
              rcases List.mem_append.1 hx with hx | hx
              · exact Or.inl hx
              · rcases List.mem_append.1 hx with hx | hx
                · have hch : cameraChanged cache s ev = true := by
                    cases hch : cameraChanged cache s ev
                    · rw [hch] at hx; simp at hx
                    · rfl
                  exact Or.inr ((cameraChanged_iff cache s ev).1 hch)
                · exfalso
                  obtain ⟨cid', cam', s', ev', hm', hl', hb', hx'⟩ := hextra _ hx
                  have hee' : ev' = ev := by simpa using hx'.symm
                  subst hee'
                  obtain ⟨r', hr'⟩ := buildCameraEvent_ok_shape env s' cam' ev' hb'
                  have hss' : s' = s := by
                    rw [hr₀] at hr'
                    simp at hr'
                    exact hr'.1.symm
                  subst hss'
                  have hc : cid' = cid :=
                    hinj cid' cid s' (hmemr cid' (List.mem_map_of_mem _ hm'))
                      hmem₀ hl' hlk
                  subst hc
                  exact hnd0 (List.mem_map_of_mem _ hm')
            · intro hx
              rcases hx with hx | hx
              · exact List.mem_append_left _ hx
              · have hch : cameraChanged cache s ev = true :=
                  (cameraChanged_iff cache s ev).2 hx
                rw [hch]
                simp
          · have hcidne : cid ≠ cid₀ := by
              intro h
              subst h
              exact hnd0 (List.mem_map_of_mem _ hmem')
            have hsne : s ≠ s₀ := by
              intro h
              subst h
              exact hcidne (hinj cid cid₀ s
                (hmemr cid (List.mem_map_of_mem _ hmem')) hmem₀ hlkc hlk)
            obtain ⟨g1, g2⟩ := hunit cid cam s ev hmem' hlkc hbde
            refine ⟨g1, ?_⟩
            rw [g2]
            have hc2 : (assocSet cache s₀ ev₀).lookup s = cache.lookup s :=
              assocSet_lookup_ne cache s₀ s ev₀ hsne
            rw [cacheShouldEmit_congr _ _ _ _ hc2]
            obtain ⟨r, hr⟩ := buildCameraEvent_ok_shape env s cam ev hbde
            have hevne : ev ≠ ev₀ := by
              intro h
              rw [hr, hr₀] at h
              have h2 : s = s₀ ∧ r = r₀ := by simpa using h
              exact hsne h2.1
            have hacc : (("evt_camera", ev) ∈
                (if cameraChanged cache s₀ ev₀ then
                  acc ++ [("evt_camera", ev₀)] else acc)) ↔
                ("evt_camera", ev) ∈ acc := by
              cases hch : cameraChanged cache s₀ ev₀
              · simp
              · simp [hevne]
            rw [hacc]

/-- **C9**: in one translation cycle over a cameras dict whose units have
distinct names mapping to distinct `DREAM.Camera` sources, the translator
emits a unit's `evt_camera` record if and only if that unit has no cached
record or its newly built field-set differs from the cached one, and the
cache holds the unit's new field-set after the cycle regardless of
emission. -/
theorem camera_event_dedup (env : Env) (cache : CameraCache) (doc : Json)
    (xs : List (String × Json)) (events : SampleList) (cache' : CameraCache)
    (hdoc : doc.getItem "cameras" = .ok (.dict xs))
    (hkeys : (List.map Prod.fst xs).Nodup)
    (hinj : ∀ k1 k2 s, k1 ∈ List.map Prod.fst xs → k2 ∈ List.map Prod.fst xs →
      (camerasMap env).lookup k1 = some s →
      (camerasMap env).lookup k2 = some s → k1 = k2)
    (hrun : get_events_camera env cache doc = (.ok events, cache')) :
    ∀ cid cam s ev, (cid, cam) ∈ xs →
      (camerasMap env).lookup cid = some s →
      buildCameraEvent env s cam = .ok ev →
      cache'.lookup s = some ev ∧
      (("evt_camera", ev) ∈ events ↔ cacheShouldEmit cache s ev) := by
  have hloop : get_events_camera_loop env xs [] cache = (.ok events, cache') := by
    unfold get_events_camera at hrun
    rw [hdoc] at hrun
    exact hrun
  obtain ⟨-, -, hunit⟩ := get_events_camera_loop_spec env xs [] cache events
    cache' hkeys hinj hloop
  intro cid cam s ev hm hl hb
  obtain ⟨g1, g2⟩ := hunit cid cam s ev hm hl hb
  exact ⟨g1, by simpa using g2⟩

/-- **C9 witness**: one cycle over a single all-`None` camera `"E"` against
an empty cache: the record is emitted (no cached record) and the cache now
holds the built field-set. -/
theorem camera_event_dedup_witness :
    ([((0 : ℤ), nullCameraEvent 0)] : CameraCache).lookup 0 =
      some (nullCameraEvent 0) ∧
    (("evt_camera", nullCameraEvent 0) ∈
        ([("evt_camera", nullCameraEvent 0)] : SampleList) ↔
      cacheShouldEmit [] 0 (nullCameraEvent 0)) :=
  camera_event_dedup defaultEnv [] singleCameraDoc [("E", nullCameraStatus)]
    [("evt_camera", nullCameraEvent 0)] [((0 : ℤ), nullCameraEvent 0)]
    (by rfl) (by simp)
    (by
      intro k1 k2 s h1 h2 _ _
      simp at h1 h2
      rw [h1, h2])
    (by rfl)
    "E" nullCameraStatus 0 (nullCameraEvent 0)
    (by simp) (by rfl) (by rfl)

end Dream
